import Mathlib

/-!
Formal model of `src/server/litellm_bridge.py` (the bridge process of the
storychef repository) and verification of its request/response contract.

The script reads one JSON object from standard input, loads a YAML template
file, looks up a template definition under the file's `defs` mapping, runs an
external template engine on the definition's `text` entry with the supplied
variables, and prints exactly one JSON object before exiting with status 0
(success) or 1 (failure).

Modelling decisions (shallow embedding):
* JSON/YAML values are the inductive `Bridge.Json`; parsed documents and the
  parsed standard-input object are supplied through an `Bridge.Env` record.
* The filesystem is a function `String → Option (Except String Json)`:
  `none` models a missing file (Python raises `FileNotFoundError` on `open`),
  `Except.error` models a file whose contents fail YAML parsing
  (`yaml.YAMLError`), `Except.ok` a successfully parsed document.
* The external engine (`yaml.dump` + `pdl.parse_str` + `pdl.exec_program` +
  `str(result)`, lines 44-57 of the script) is a function from the template
  text value and the variables value to `Except String String`; an engine
  failure is an ordinary exception, caught by the script's final catch-all
  clause (per the spec, every failure inside the engine maps to `ai_error`).
* Python exceptions relevant to the script's `except` clauses are the
  inductive `Bridge.PyExc`; purely diagnostic text that the model cannot
  reproduce exactly (tracebacks, messages of type errors raised inside
  library calls) is abbreviated, while every message asserted by a theorem
  below matches the script's f-strings literally.
-/

namespace Bridge

/-- JSON (and parsed-YAML) values.  Objects are ordered association lists,
mirroring Python dict insertion order, which `json.dumps` preserves. -/
inductive Json where
  | null
  | bool (b : Bool)
  | num (n : Int)
  | str (s : String)
  | arr (elems : List Json)
  | obj (fields : List (String × Json))

/-- A JSON object as printed by the script: an ordered list of fields. -/
abbrev JObj := List (String × Json)

/-- The Python exceptions distinguished by the script's `except` clauses.
`FileNotFoundError`, `yaml.YAMLError` and `KeyError` have their own clauses;
`ValueError`, `AttributeError`, `TypeError` and anything raised inside the
external engine (`other`) fall to the catch-all `except Exception` clause. -/
inductive PyExc where
  | fileNotFound (msg : String)
  | yamlError (msg : String)
  | keyError (key : String)
  | valueError (msg : String)
  | attributeError (msg : String)
  | typeError (msg : String)
  | other (msg : String)

/-- First-match association-list lookup: Python dict lookup (dicts cannot
hold duplicate keys, so first-match is faithful). -/
def jlookup : JObj → String → Option Json
  | [], _ => none
  | (k, v) :: rest, key => if k = key then some v else jlookup rest key

/-- Python `d.get(key, default)`: returns the stored value or the default on
a dict, raises `AttributeError` on any non-dict value. -/
def pyGet (j : Json) (key : String) (default : Json) : Except PyExc Json :=
  match j with
  | .obj l => .ok ((jlookup l key).getD default)
  | _ => .error (.attributeError ("object has no attribute " ++ "get"))

/-- Python `x in container` for the containers this script can reach: a dict
tests key membership (keys here are strings, so only a string operand can
match; an unhashable operand raises `TypeError`), and every non-dict
container raises `TypeError`.  The script only evaluates this with the value
of `defs`, which the claims fix to a mapping (or to the `.get` default `{}`). -/
def pyIn (x container : Json) : Except PyExc Bool :=
  match container with
  | .obj l =>
    match x with
    | .str s => .ok (l.any (fun p => p.1 == s))
    | .arr _ => .error (.typeError "unhashable type")
    | .obj _ => .error (.typeError "unhashable type")
    | _ => .ok false
  | _ => .error (.typeError "argument is not a container")

/-- Python `container[index]` for the lookups the script performs: dict
indexing by a string key raises `KeyError` when the key is absent; indexing
a dict by another hashable scalar also raises `KeyError`; any other indexing
the script could reach raises `TypeError`. -/
def pyIndex (container index : Json) : Except PyExc Json :=
  match container, index with
  | .obj l, .str k =>
    match jlookup l k with
    | some v => .ok v
    | none => .error (.keyError k)
  | .obj _, .arr _ => .error (.typeError "unhashable type")
  | .obj _, .obj _ => .error (.typeError "unhashable type")
  | .obj _, _ => .error (.keyError "non-string key")
  | _, _ => .error (.typeError "object is not subscriptable")

/-- Python `list(d.keys())` in insertion order; `AttributeError` on a
non-dict value. -/
def pyKeys (j : Json) : Except PyExc (List String) :=
  match j with
  | .obj _ => .ok (match j with | .obj l => l.map Prod.fst | _ => [])
  | _ => .error (.attributeError ("object has no attribute " ++ "keys"))

/-- Python `str` applied to a value interpolated into an f-string.  Only the
`null` and `str` cases are ever asserted by a theorem (the script's
unknown-template message interpolates `template_name`, which at that point is
either a string or `None`); container renderings are abbreviated. -/
def pyStr (j : Json) : String :=
  match j with
  | .null => "None"
  | .bool true => "True"
  | .bool false => "False"
  | .num n => toString n
  | .str s => s
  | .arr _ => "[...]"
  | .obj ..=> "\x7b...\x7d"

/-- `posixpath.isabs`: a path is absolute iff it starts with a slash. -/
def isAbs (p : String) : Bool := p.data.head? == some '/'

/-- `posixpath.dirname`: everything up to the last slash, with trailing
slashes stripped unless the result consists of slashes only. -/
def posixDirname (p : String) : String :=
  let head := (p.data.reverse.dropWhile (fun c => c != '/')).reverse
  if head.isEmpty then ""
  else if head.all (fun c => c == '/') then ⟨head⟩
  else ⟨(head.reverse.dropWhile (fun c => c == '/')).reverse⟩

/-- `posixpath.join` for two components: an absolute second component wins;
otherwise the components are glued with a single slash unless the first is
empty or already ends in one. -/
def posixJoin (a b : String) : String :=
  if b.data.head? == some '/' then b
  else if a.data.isEmpty || a.data.getLast? == some '/' then a ++ b
  else a ++ "/" ++ b

/-- The default template-file path (line 15 of the script). -/
def defaultPdlPath : String := "./prompts/story-prompts.pdl"

/-- Lines 18-23: an absolute path is used verbatim; a relative path is
joined to the project root, computed as two parent directories above the
script's own directory (`script_dir`). -/
def resolvePdl (scriptDir p : String) : String :=
  if isAbs p then p
  else posixJoin (posixDirname (posixDirname scriptDir)) p

/-- Lines 15-23: read `pdl_file` from the request (defaulting to
`defaultPdlPath`) and resolve it.  `os.path.isabs` raises `TypeError` when
the value is not a string. -/
def requestPath (scriptDir : String) (input : Json) : Except PyExc String :=
  match pyGet input "pdl_file" (.str defaultPdlPath) with
  | .error e => .error e
  | .ok (.str p) => .ok (resolvePdl scriptDir p)
  | .ok _ => .error (.typeError "expected str, bytes or os.PathLike object")

/-- The process environment: parsed standard input (`none` models a JSON
decode failure, a `ValueError` subclass), the script's own directory
(`os.path.dirname(os.path.abspath(__file__))`), the filesystem, and the
external template engine (documented in the module header). -/
structure Env where
  stdinJson : Option Json
  scriptDir : String
  fs : String → Option (Except String Json)
  engine : Json → Json → Except String String

/-- Lines 15-26: resolve the path, open the file (`FileNotFoundError` when
absent) and parse it as YAML (`yaml.YAMLError` on bad syntax). -/
def loadConfig (env : Env) (input : Json) : Except PyExc Json :=
  match requestPath env.scriptDir input with
  | .error e => .error e
  | .ok path =>
    match env.fs path with
    | none =>
      .error (.fileNotFound ("[Errno 2] No such file or directory: \x27" ++ path ++ "\x27"))
    | some (.error m) => .error (.yamlError m)
    | some (.ok doc) => .ok doc

/-- Lines 29-33: check `template_name not in pdl_config.get('defs', {})`,
raising the script's `ValueError` when the name is absent, then fetch
`pdl_config['defs'][template_name]`. -/
def getTemplateDef (cfg tname : Json) : Except PyExc Json :=
  match pyGet cfg "defs" (.obj []) with
  | .error e => .error e
  | .ok defsVal =>
    match pyIn tname defsVal with
    | .error e => .error e
    | .ok false =>
      .error (.valueError ("Template \x27" ++ pyStr tname ++ "\x27 not found in PDL configuration"))
    | .ok true =>
      match pyIndex cfg (.str "defs") with
      | .error e => .error e
      | .ok d => pyIndex d tname

/-- Python whitespace stripped by `str.strip()` (the ASCII whitespace
characters; the additional Unicode whitespace Python also strips plays no
role here). -/
def pyWhitespace (c : Char) : Bool :=
  c == ' ' || c == '\t' || c == '\n' || c == '\r' || c == '\x0b' || c == '\x0c'

/-- Python `s.strip()`: remove leading and trailing whitespace (line 57,
`str(result).strip()`). -/
def pyStrip (s : String) : String :=
  ⟨((s.data.dropWhile pyWhitespace).reverse.dropWhile pyWhitespace).reverse⟩

/-- Lines 60-64: the debug preview truncates the result to 200 characters
(Python slices by code point). -/
def previewOf (s : String) : String :=
  if s.data.length > 200 then (⟨s.data.take 200⟩ : String) ++ "..." else s

/-- Lines 66-72: the success object, with fields in dict insertion order. -/
def successOutput (content : String) (tname : Json) (ks : List String) : JObj :=
  [("success", .bool true),
   ("content", .str content),
   ("template", tname),
   ("variables_used", .arr (ks.map Json.str)),
   ("debug_preview", .str (previewOf content))]

/-- The body of the `try` block (lines 11-72), step by step in the script's
evaluation order; each failure carries the Python exception that escapes. -/
def tryMain (env : Env) : Except PyExc JObj :=
  match env.stdinJson with
  | none => .error (.valueError "Expecting value: line 1 column 1 (char 0)")
  | some input =>
    match loadConfig env input with
    | .error e => .error e
    | .ok cfg =>
      match pyGet input "template" Json.null with
      | .error e => .error e
      | .ok tname =>
        match getTemplateDef cfg tname with
        | .error e => .error e
        | .ok tdef =>
          match pyGet input "variables" (.obj []) with
          | .error e => .error e
          | .ok vars =>
            match pyIndex tdef (.str "text") with
            | .error e => .error e
            | .ok ttext =>
              match env.engine ttext vars with
              | .error m => .error (.other m)
              | .ok raw =>
                match pyKeys vars with
                | .error e => .error e
                | .ok ks => .ok (successOutput (pyStrip raw) tname ks)

/-- The message `str(e)` interpolated by the catch-all clause. -/
def excMsg : PyExc → String
  | .fileNotFound m => m
  | .yamlError m => m
  | .keyError k => "\x27" ++ k ++ "\x27"
  | .valueError m => m
  | .attributeError m => m
  | .typeError m => m
  | .other m => m

/-- Stand-in for `traceback.format_exc()`; the traceback text itself is
diagnostic only and not modelled. -/
def tracebackText : String := "Traceback (most recent call last): ..."

/-- Lines 74-109: the four `except` clauses, each building the error object
printed before `sys.exit(1)`.  Dict insertion order is preserved; the
catch-all clause adds a `traceback` field. -/
def errorOutput (e : PyExc) : JObj :=
  match e with
  | .fileNotFound m =>
    [("success", .bool false),
     ("error", .str ("PDL file not found: " ++ m)),
     ("error_type", .str "file_not_found")]
  | .yamlError m =>
    [("success", .bool false),
     ("error", .str ("YAML parsing error: " ++ m)),
     ("error_type", .str "yaml_error")]
  | .keyError k =>
    [("success", .bool false),
     ("error", .str ("Missing required field: \x27" ++ k ++ "\x27")),
     ("error_type", .str "missing_field")]
  | e =>
    [("success", .bool false),
     ("error", .str ("AI generation error: " ++ excMsg e)),
     ("error_type", .str "ai_error"),
     ("traceback", .str tracebackText)]

/-- Result of one process run: the JSON objects printed on standard output
(each `print` emits one object followed by a newline) and the exit status. -/
structure RunResult where
  stdout : List JObj
  exitCode : Nat

/-- One full execution of the script: the `try` body on success prints the
success object and falls off `main` (exit status 0); any exception is caught
by exactly one `except` clause, which prints its error object and calls
`sys.exit(1)`. -/
def runBridge (env : Env) : RunResult :=
  match tryMain env with
  | .ok out => { stdout := [out], exitCode := 0 }
  | .error e => { stdout := [errorOutput e], exitCode := 1 }

/-- The single object a run printed (default `[]`, never used: every run
prints exactly one object). -/
def firstOut (r : RunResult) : JObj := r.stdout.headD []

/-- The success response shape: `success: true` plus string `content`,
`template`, and sequence `variables_used` fields. -/
def successShape (o : JObj) : Bool :=
  (match jlookup o "success" with | some (.bool true) => true | _ => false) &&
  (match jlookup o "content" with | some (.str _) => true | _ => false) &&
  (jlookup o "template").isSome &&
  (match jlookup o "variables_used" with | some (.arr _) => true | _ => false)

/-- The failure response shape: `success: false` plus a string `error` and
an `error_type` drawn from the script's four error kinds. -/
def failureShape (o : JObj) : Bool :=
  (match jlookup o "success" with | some (.bool false) => true | _ => false) &&
  (match jlookup o "error" with | some (.str _) => true | _ => false) &&
  (match jlookup o "error_type" with
   | some (.str t) =>
     t == "file_not_found" || t == "yaml_error" || t == "missing_field" || t == "ai_error"
   | _ => false)

/-! ### Helper lemmas about lookups and the Python primitives -/

theorem jlookup_some_any {l : JObj} {k : String} {v : Json}
    (h : jlookup l k = some v) : l.any (fun p => p.1 == k) = true := by
  induction l with
  | nil => simp [jlookup] at h
  | cons hd tl ih =>
    rcases hd with ⟨k0, v0⟩
    by_cases hk : k0 = k
    · simp [hk]
    · simp only [jlookup] at h
      rw [if_neg hk] at h
      simp [hk, ih h]

theorem any_jlookup_isSome {l : JObj} {k : String}
    (h : l.any (fun p => p.1 == k) = true) : ∃ v, jlookup l k = some v := by
  induction l with
  | nil => simp at h
  | cons hd tl ih =>
    rcases hd with ⟨k0, v0⟩
    by_cases hk : k0 = k
    · exact ⟨v0, by simp [jlookup, hk]⟩
    · simp only [List.any_cons, Bool.or_eq_true, beq_iff_eq] at h
      rcases h with h | h
      · exact absurd h hk
      · obtain ⟨v, hv⟩ := ih h
        exact ⟨v, by simp [jlookup, hk, hv]⟩

theorem jlookup_none_any {l : JObj} {k : String} (h : jlookup l k = none) :
    l.any (fun p => p.1 == k) = false := by
  induction l with
  | nil => simp
  | cons hd tl ih =>
    rcases hd with ⟨k0, v0⟩
    by_cases hk : k0 = k
    · simp [jlookup, hk] at h
    · simp only [jlookup] at h
      rw [if_neg hk] at h
      simp [hk, ih h]

theorem pyGet_error {j : Json} {k : String} {d : Json} {e : PyExc}
    (h : pyGet j k d = .error e) : ∃ m, e = .attributeError m := by
  cases j <;>
    first
      | exact Except.noConfusion h
      | exact ⟨_, (Except.error.inj h).symm⟩

theorem pyGet_ok {j : Json} {k : String} {d v : Json}
    (h : pyGet j k d = .ok v) : ∃ l, j = .obj l ∧ v = (jlookup l k).getD d := by
  cases j <;>
    first
      | exact Except.noConfusion h
      | exact ⟨_, rfl, (Except.ok.inj h).symm⟩

theorem pyIn_error {x c : Json} {e : PyExc}
    (h : pyIn x c = .error e) : ∃ m, e = .typeError m := by
  cases c with
  | obj l =>
    cases x <;>
      first
        | exact Except.noConfusion h
        | exact ⟨_, (Except.error.inj h).symm⟩
  | null => exact ⟨_, (Except.error.inj h).symm⟩
  | bool b => exact ⟨_, (Except.error.inj h).symm⟩
  | num n => exact ⟨_, (Except.error.inj h).symm⟩
  | str s => exact ⟨_, (Except.error.inj h).symm⟩
  | arr l => exact ⟨_, (Except.error.inj h).symm⟩

theorem pyIn_ok_true {x c : Json} (h : pyIn x c = .ok true) :
    ∃ s dl, x = .str s ∧ c = .obj dl ∧ dl.any (fun p => p.1 == s) = true := by
  cases c with
  | obj l =>
    cases x with
    | str s => exact ⟨s, l, rfl, rfl, Except.ok.inj h⟩
    | null => exact Bool.noConfusion (Except.ok.inj h)
    | bool b => exact Bool.noConfusion (Except.ok.inj h)
    | num n => exact Bool.noConfusion (Except.ok.inj h)
    | arr l2 => exact Except.noConfusion h
    | obj l2 => exact Except.noConfusion h
  | null => exact Except.noConfusion h
  | bool b => exact Except.noConfusion h
  | num n => exact Except.noConfusion h
  | str s => exact Except.noConfusion h
  | arr l => exact Except.noConfusion h

theorem pyKeys_error {j : Json} {e : PyExc}
    (h : pyKeys j = .error e) : ∃ m, e = .attributeError m := by
  cases j <;>
    first
      | exact Except.noConfusion h
      | exact ⟨_, (Except.error.inj h).symm⟩

theorem requestPath_not_keyError {scriptDir : String} {input : Json} {e : PyExc}
    (h : requestPath scriptDir input = .error e) : ∀ k, e ≠ .keyError k := by
  intro k hk
  subst hk
  unfold requestPath at h
  cases hg : pyGet input "pdl_file" (.str defaultPdlPath) with
  | error e2 =>
    simp only [hg] at h
    obtain ⟨m, rfl⟩ := pyGet_error hg
    exact PyExc.noConfusion (Except.error.inj h)
  | ok v =>
    simp only [hg] at h
    cases v <;>
      first
        | exact Except.noConfusion h
        | exact PyExc.noConfusion (Except.error.inj h)

theorem loadConfig_not_keyError {env : Env} {input : Json} {e : PyExc}
    (h : loadConfig env input = .error e) : ∀ k, e ≠ .keyError k := by
  intro k hk
  subst hk
  unfold loadConfig at h
  cases hp : requestPath env.scriptDir input with
  | error e2 =>
    simp only [hp] at h
    exact absurd (Except.error.inj h) (requestPath_not_keyError hp k)
  | ok path =>
    simp only [hp] at h
    cases hf : env.fs path with
    | none =>
      simp only [hf] at h
      exact PyExc.noConfusion (Except.error.inj h)
    | some r =>
      simp only [hf] at h
      cases r with
      | error m => exact PyExc.noConfusion (Except.error.inj h)
      | ok doc => exact Except.noConfusion h

/-! ### Inversion of a successful run of the try-block -/

theorem tryMain_ok_inv {env : Env} {o : JObj} (h : tryMain env = .ok o) :
    ∃ (input tname vars : Json) (raw : String) (ks : List String),
      env.stdinJson = some input ∧
      pyGet input "template" Json.null = .ok tname ∧
      pyGet input "variables" (.obj []) = .ok vars ∧
      pyKeys vars = .ok ks ∧
      o = successOutput (pyStrip raw) tname ks := by
  unfold tryMain at h
  cases hin : env.stdinJson with
  | none => simp only [hin] at h; exact Except.noConfusion h
  | some input =>
    simp only [hin] at h
    cases hcfg : loadConfig env input with
    | error e => simp only [hcfg] at h; exact Except.noConfusion h
    | ok cfg =>
      simp only [hcfg] at h
      cases htn : pyGet input "template" Json.null with
      | error e => simp only [htn] at h; exact Except.noConfusion h
      | ok tname =>
        simp only [htn] at h
        cases htd : getTemplateDef cfg tname with
        | error e => simp only [htd] at h; exact Except.noConfusion h
        | ok tdef =>
          simp only [htd] at h
          cases hv : pyGet input "variables" (.obj []) with
          | error e => simp only [hv] at h; exact Except.noConfusion h
          | ok vars =>
            simp only [hv] at h
            cases htx : pyIndex tdef (.str "text") with
            | error e => simp only [htx] at h; exact Except.noConfusion h
            | ok ttext =>
              simp only [htx] at h
              cases heng : env.engine ttext vars with
              | error m => simp only [heng] at h; exact Except.noConfusion h
              | ok raw =>
                simp only [heng] at h
                cases hks : pyKeys vars with
                | error e => simp only [hks] at h; exact Except.noConfusion h
                | ok ks =>
                  simp only [hks] at h
                  exact ⟨input, tname, vars, raw, ks, rfl, htn, hv, hks,
                    (Except.ok.inj h).symm⟩

/-! ### Shape lemmas for the two response forms -/

theorem successShape_successOutput (c : String) (tn : Json) (ks : List String) :
    successShape (successOutput c tn ks) = true := by
  simp [successShape, successOutput, jlookup]

theorem failureShape_successOutput (c : String) (tn : Json) (ks : List String) :
    failureShape (successOutput c tn ks) = false := by
  simp [failureShape, successOutput, jlookup]

theorem failureShape_errorOutput (e : PyExc) :
    failureShape (errorOutput e) = true := by
  cases e <;> simp [failureShape, errorOutput, jlookup]

theorem successShape_errorOutput (e : PyExc) :
    successShape (errorOutput e) = false := by
  cases e <;> simp [successShape, errorOutput, jlookup]

/-! ### Concrete test environments -/

/-- A well-formed request: absolute `pdl_file`, existing template, two
variables (in this order). -/
def okRequest : JObj :=
  [("pdl_file", Json.str "/data/prompts.pdl"),
   ("template", Json.str "greeting"),
   ("variables", Json.obj [("name", Json.str "Ada"), ("tone", Json.str "warm")])]

/-- The `defs` mapping of the concrete template file. -/
def okConfigDefs : JObj := [("greeting", Json.obj [("text", Json.str "Say hello")])]

/-- A valid parsed template file with one template under `defs`. -/
def okConfig : JObj := [("defs", Json.obj okConfigDefs)]

/-- Happy-path environment: the engine produces text with surrounding
whitespace, which the script strips. -/
def envSuccess : Env :=
  { stdinJson := some (.obj okRequest),
    scriptDir := "/app/src/server",
    fs := fun p => if p = "/data/prompts.pdl" then some (.ok (.obj okConfig)) else none,
    engine := fun _ _ => .ok " Hello, Ada! " }

/-- Same request and template file, but the engine result strips to the
empty string. -/
def envBlankResult : Env :=
  { stdinJson := some (.obj okRequest),
    scriptDir := "/app/src/server",
    fs := fun p => if p = "/data/prompts.pdl" then some (.ok (.obj okConfig)) else none,
    engine := fun _ _ => .ok "   " }

/-! ### C1: shape of the success response -/

/-- C1 (amended): for a well-formed request naming a template present under
`defs` (whose definition is a mapping with a `text` entry), with the template
file present and valid and the engine succeeding, the process exits 0 and
emits exactly the five-field object `success: true`, `content` (the engine
result with surrounding whitespace stripped, possibly empty), `template`
(the requested name), `variables_used` (the keys of the supplied `variables`
mapping, in the order given) and `debug_preview` (the content truncated to
200 characters). -/
theorem bridge_success_response_fields (env : Env) (rq : JObj) (t path : String)
    (cfgl defsl tdefl vs : JObj) (txt : Json) (raw : String)
    (hin : env.stdinJson = some (.obj rq))
    (ht : jlookup rq "template" = some (.str t))
    (hv : jlookup rq "variables" = some (.obj vs))
    (hpath : requestPath env.scriptDir (.obj rq) = .ok path)
    (hfs : env.fs path = some (.ok (.obj cfgl)))
    (hdefs : jlookup cfgl "defs" = some (.obj defsl))
    (htdef : jlookup defsl t = some (.obj tdefl))
    (htxt : jlookup tdefl "text" = some txt)
    (heng : env.engine txt (.obj vs) = .ok raw) :
    runBridge env =
      { stdout := [successOutput (pyStrip raw) (.str t) (vs.map Prod.fst)], exitCode := 0 } := by
  have hcfg : loadConfig env (.obj rq) = .ok (.obj cfgl) := by
    simp only [loadConfig, hpath, hfs]
  have htn : pyGet (.obj rq) "template" Json.null = .ok (.str t) := by
    simp [pyGet, ht]
  have hdv : pyGet (.obj cfgl) "defs" (.obj []) = .ok (.obj defsl) := by
    simp [pyGet, hdefs]
  have hmem : pyIn (.str t) (.obj defsl) = .ok true := by
    simp [pyIn, jlookup_some_any htdef]
  have hidx1 : pyIndex (.obj cfgl) (.str "defs") = .ok (.obj defsl) := by
    simp [pyIndex, hdefs]
  have hidx2 : pyIndex (.obj defsl) (.str t) = .ok (.obj tdefl) := by
    simp [pyIndex, htdef]
  have htd : getTemplateDef (.obj cfgl) (.str t) = .ok (.obj tdefl) := by
    simp only [getTemplateDef, hdv, hmem, hidx1, hidx2]
  have hvv : pyGet (.obj rq) "variables" (.obj []) = .ok (.obj vs) := by
    simp [pyGet, hv]
  have htx : pyIndex (.obj tdefl) (.str "text") = .ok txt := by
    simp [pyIndex, htxt]
  have hks : pyKeys (.obj vs) = .ok (vs.map Prod.fst) := by simp [pyKeys]
  have hmain : tryMain env = .ok (successOutput (pyStrip raw) (.str t) (vs.map Prod.fst)) := by
    simp only [tryMain, hin, hcfg, htn, htd, hvv, htx, heng, hks]
  simp [runBridge, hmain]

/-- C1 witness: the happy-path environment produces the full five-field
success object with trimmed content and the variable keys in request order. -/
theorem bridge_success_response_fields_witness :
    runBridge envSuccess =
      { stdout := [successOutput "Hello, Ada!" (.str "greeting") ["name", "tone"]],
        exitCode := 0 } :=
  bridge_success_response_fields envSuccess okRequest "greeting" "/data/prompts.pdl"
    okConfig okConfigDefs [("text", Json.str "Say hello")]
    [("name", Json.str "Ada"), ("tone", Json.str "warm")] (Json.str "Say hello")
    " Hello, Ada! " rfl rfl rfl rfl rfl rfl rfl rfl rfl

/-- C1 counterexample: a successful run (exit 0) whose emitted object carries
a fifth field `debug_preview` (so the claimed four-field shape with no other
fields is violated) and whose `content` is the empty string (so `content` is
not always non-empty when the engine succeeds). -/
theorem bridge_success_response_fields_cex :
    (runBridge envBlankResult).exitCode = 0 ∧
    (jlookup (firstOut (runBridge envBlankResult)) "debug_preview").isSome = true ∧
    jlookup (firstOut (runBridge envBlankResult)) "content" = some (.str "") :=
  ⟨rfl, rfl, rfl⟩

/-! ### C2: exactly one response object, exit status tied to its shape -/

/-- C2: on every execution exactly one JSON object is printed, it matches
exactly one of the two response shapes (the success shape with `success:
true`, string `content`, `template` and a `variables_used` sequence, or the
failure shape with `success: false`, a string `error` and one of the four
`error_type` kinds), and the exit status is 0 precisely for the success
shape and 1 for any failure. -/
theorem bridge_single_response_and_exit (env : Env) :
    ∃ o, (runBridge env).stdout = [o] ∧
      ((successShape o = true ∧ failureShape o = false ∧ (runBridge env).exitCode = 0) ∨
       (failureShape o = true ∧ successShape o = false ∧ (runBridge env).exitCode = 1)) := by
  cases h : tryMain env with
  | ok out =>
    obtain ⟨input, tname, vars, raw, ks, _, _, _, _, ho⟩ := tryMain_ok_inv h
    subst ho
    refine ⟨successOutput (pyStrip raw) tname ks, ?_,
      Or.inl ⟨successShape_successOutput _ _ _, failureShape_successOutput _ _ _, ?_⟩⟩ <;>
      simp [runBridge, h]
  | error e =>
    refine ⟨errorOutput e, ?_,
      Or.inr ⟨failureShape_errorOutput e, successShape_errorOutput e, ?_⟩⟩ <;>
      simp [runBridge, h]

/-! ### C3: unknown template name falls to the catch-all clause -/

/-- A request naming a template that the file's `defs` mapping lacks. -/
def unknownRequest : JObj :=
  [("pdl_file", Json.str "/data/prompts.pdl"),
   ("template", Json.str "missing-template"),
   ("variables", Json.obj [])]

/-- Environment for the unknown-template run (valid file, absent name). -/
def envUnknownTemplate : Env :=
  { stdinJson := some (.obj unknownRequest),
    scriptDir := "/app/src/server",
    fs := fun p => if p = "/data/prompts.pdl" then some (.ok (.obj okConfig)) else none,
    engine := fun _ _ => .ok "unused" }

/-- C3: a request naming a template absent from the file's `defs` mapping
(file present, valid YAML) exits with status 1; the script raises a generic
`ValueError` with its unknown-template message rather than a structured
error kind, so only the catch-all clause fires and the emitted `error_type`
is `ai_error`. -/
theorem bridge_unknown_template_ai_error (env : Env) (rq : JObj) (t path : String)
    (cfgl defsl : JObj)
    (hin : env.stdinJson = some (.obj rq))
    (ht : jlookup rq "template" = some (.str t))
    (hpath : requestPath env.scriptDir (.obj rq) = .ok path)
    (hfs : env.fs path = some (.ok (.obj cfgl)))
    (hdefs : jlookup cfgl "defs" = some (.obj defsl))
    (habs : jlookup defsl t = none) :
    (runBridge env).exitCode = 1 ∧
    firstOut (runBridge env) =
      errorOutput (.valueError ("Template \x27" ++ t ++ "\x27 not found in PDL configuration")) ∧
    jlookup (firstOut (runBridge env)) "error_type" = some (.str "ai_error") := by
  have hcfg : loadConfig env (.obj rq) = .ok (.obj cfgl) := by
    simp only [loadConfig, hpath, hfs]
  have htn : pyGet (.obj rq) "template" Json.null = .ok (.str t) := by
    simp [pyGet, ht]
  have hdv : pyGet (.obj cfgl) "defs" (.obj []) = .ok (.obj defsl) := by
    simp [pyGet, hdefs]
  have hmem : pyIn (.str t) (.obj defsl) = .ok false := by
    simp [pyIn, jlookup_none_any habs]
  have htd : getTemplateDef (.obj cfgl) (.str t) =
      .error (.valueError ("Template \x27" ++ t ++ "\x27 not found in PDL configuration")) := by
    simp only [getTemplateDef, hdv, hmem, pyStr]
  have hmain : tryMain env =
      .error (.valueError ("Template \x27" ++ t ++ "\x27 not found in PDL configuration")) := by
    simp only [tryMain, hin, hcfg, htn, htd]
  refine ⟨?_, ?_, ?_⟩ <;> simp [runBridge, hmain, firstOut, errorOutput, jlookup]

/-- C3 witness: the concrete unknown-template run exits 1 with the generic
message routed to `ai_error`. -/
theorem bridge_unknown_template_ai_error_witness :
    (runBridge envUnknownTemplate).exitCode = 1 ∧
    firstOut (runBridge envUnknownTemplate) =
      errorOutput (.valueError "Template \x27missing-template\x27 not found in PDL configuration") ∧
    jlookup (firstOut (runBridge envUnknownTemplate)) "error_type" = some (.str "ai_error") :=
  bridge_unknown_template_ai_error envUnknownTemplate unknownRequest "missing-template"
    "/data/prompts.pdl" okConfig okConfigDefs rfl rfl rfl rfl rfl rfl

/-! ### C4: variables_used is determined by the request alone -/

theorem success_vars_used {env : Env} {rq vs : JObj}
    (hin : env.stdinJson = some (.obj rq))
    (hv : jlookup rq "variables" = some (.obj vs))
    (h0 : (runBridge env).exitCode = 0) :
    jlookup (firstOut (runBridge env)) "variables_used" =
      some (.arr ((vs.map Prod.fst).map Json.str)) := by
  cases htm : tryMain env with
  | error e => simp [runBridge, htm] at h0
  | ok o =>
    obtain ⟨input, tname, vars, raw, ks, hi, _, hvv, hks, ho⟩ := tryMain_ok_inv htm
    have hinput : input = .obj rq := by
      rw [hin] at hi
      exact (Option.some.inj hi).symm
    subst hinput
    have hvars : vars = .obj vs := by
      have : pyGet (.obj rq) "variables" (.obj []) = .ok (.obj vs) := by
        simp [pyGet, hv]
      exact (Except.ok.inj (hvv.symm.trans this))
    subst hvars
    have hkeys : ks = vs.map Prod.fst := by
      have : pyKeys (.obj vs) = .ok (vs.map Prod.fst) := by simp [pyKeys]
      exact (Except.ok.inj (hks.symm.trans this))
    subst hkeys ho
    simp [runBridge, htm, firstOut, successOutput, jlookup]

/-- A second environment sharing `envSuccess`'s standard input but with a
different script location, template-file contents and engine output. -/
def envSuccessAlt : Env :=
  { stdinJson := some (.obj okRequest),
    scriptDir := "/other/place/x",
    fs := fun p =>
      if p = "/data/prompts.pdl" then
        some (.ok (.obj [("defs",
          .obj [("greeting", .obj [("text", .str "Different template body")])])]))
      else none,
    engine := fun _ _ => .ok "entirely different output" }

/-- C4: on every successful invocation, `variables_used` is exactly the keys
of the request's `variables` object (in order, hence also as a set),
regardless of the template file's contents or the engine: two successful
runs on the same standard input report the same `variables_used`. -/
theorem bridge_variables_used_from_request (env1 env2 : Env) (rq vs : JObj)
    (hin : env1.stdinJson = some (.obj rq))
    (hin2 : env2.stdinJson = env1.stdinJson)
    (hv : jlookup rq "variables" = some (.obj vs))
    (h1 : (runBridge env1).exitCode = 0)
    (h2 : (runBridge env2).exitCode = 0) :
    jlookup (firstOut (runBridge env1)) "variables_used" =
      some (.arr ((vs.map Prod.fst).map Json.str)) ∧
    jlookup (firstOut (runBridge env2)) "variables_used" =
      jlookup (firstOut (runBridge env1)) "variables_used" := by
  refine ⟨success_vars_used hin hv h1, ?_⟩
  rw [success_vars_used hin hv h1, success_vars_used (hin2.trans hin) hv h2]

/-- C4 witness: two successful runs with identical standard input but
different template files and engines both report the keys `name`, `tone`
supplied in the request. -/
theorem bridge_variables_used_from_request_witness :
    jlookup (firstOut (runBridge envSuccess)) "variables_used" =
      some (.arr [.str "name", .str "tone"]) ∧
    jlookup (firstOut (runBridge envSuccessAlt)) "variables_used" =
      jlookup (firstOut (runBridge envSuccess)) "variables_used" :=
  bridge_variables_used_from_request envSuccess envSuccessAlt okRequest
    [("name", Json.str "Ada"), ("tone", Json.str "warm")] rfl rfl rfl rfl rfl

/-! ### C5: resolution of the template-file path -/

/-- C5: `pdl_file` defaults to the fixed relative path when absent; an
absolute path is used verbatim; a relative path is joined to the project
root computed as two parent directories above the script's own directory. -/
theorem bridge_pdl_path_resolution (scriptDir : String) (rq : JObj) :
    (jlookup rq "pdl_file" = none →
      requestPath scriptDir (.obj rq) =
        .ok (posixJoin (posixDirname (posixDirname scriptDir)) defaultPdlPath)) ∧
    (∀ p, jlookup rq "pdl_file" = some (.str p) → isAbs p = true →
      requestPath scriptDir (.obj rq) = .ok p) ∧
    (∀ p, jlookup rq "pdl_file" = some (.str p) → isAbs p = false →
      requestPath scriptDir (.obj rq) =
        .ok (posixJoin (posixDirname (posixDirname scriptDir)) p)) := by
  refine ⟨?_, ?_, ?_⟩
  · intro h
    have hg : pyGet (.obj rq) "pdl_file" (.str defaultPdlPath) = .ok (.str defaultPdlPath) := by
      simp [pyGet, h]
    simp only [requestPath, hg]
    rfl
  · intro p hp habs
    have hg : pyGet (.obj rq) "pdl_file" (.str defaultPdlPath) = .ok (.str p) := by
      simp [pyGet, hp]
    simp [requestPath, hg, resolvePdl, habs]
  · intro p hp habs
    have hg : pyGet (.obj rq) "pdl_file" (.str defaultPdlPath) = .ok (.str p) := by
      simp [pyGet, hp]
    simp [requestPath, hg, resolvePdl, habs]

/-- C5 witness: with the script at `/proj/src/server`, an absent `pdl_file`
resolves to the default joined below `/proj`, and an absolute `pdl_file` is
used verbatim. -/
theorem bridge_pdl_path_resolution_witness :
    requestPath "/proj/src/server" (.obj [("template", Json.str "x")]) =
      .ok "/proj/./prompts/story-prompts.pdl" ∧
    requestPath "/proj/src/server" (.obj [("pdl_file", Json.str "/abs/file.pdl")]) =
      .ok "/abs/file.pdl" :=
  ⟨(bridge_pdl_path_resolution "/proj/src/server" [("template", Json.str "x")]).1 rfl,
   (bridge_pdl_path_resolution "/proj/src/server"
      [("pdl_file", Json.str "/abs/file.pdl")]).2.1 "/abs/file.pdl" rfl rfl⟩

/-! ### C6: missing template file -/

/-- Environment whose filesystem holds no file at all. -/
def envMissingFile : Env :=
  { stdinJson := some (.obj
      [("pdl_file", Json.str "/nowhere/p.pdl"), ("template", Json.str "greeting")]),
    scriptDir := "/app/src/server",
    fs := fun _ => none,
    engine := fun _ _ => .ok "unused" }

/-- C6: when the resolved `pdl_file` path names no existing file, the
process exits 1 and emits `success: false` with `error_type:
file_not_found`. -/
theorem bridge_missing_file_error (env : Env) (rq : JObj) (path : String)
    (hin : env.stdinJson = some (.obj rq))
    (hpath : requestPath env.scriptDir (.obj rq) = .ok path)
    (hfs : env.fs path = none) :
    (runBridge env).exitCode = 1 ∧
    jlookup (firstOut (runBridge env)) "success" = some (.bool false) ∧
    jlookup (firstOut (runBridge env)) "error_type" = some (.str "file_not_found") := by
  have hcfg : loadConfig env (.obj rq) =
      .error (.fileNotFound ("[Errno 2] No such file or directory: \x27" ++ path ++ "\x27")) := by
    simp only [loadConfig, hpath, hfs]
  have hmain : tryMain env =
      .error (.fileNotFound ("[Errno 2] No such file or directory: \x27" ++ path ++ "\x27")) := by
    simp only [tryMain, hin, hcfg]
  refine ⟨?_, ?_, ?_⟩ <;> simp [runBridge, hmain, firstOut, errorOutput, jlookup]

/-- C6 witness: the concrete missing-file run exits 1 with
`file_not_found`. -/
theorem bridge_missing_file_error_witness :
    (runBridge envMissingFile).exitCode = 1 ∧
    jlookup (firstOut (runBridge envMissingFile)) "success" = some (.bool false) ∧
    jlookup (firstOut (runBridge envMissingFile)) "error_type" = some (.str "file_not_found") :=
  bridge_missing_file_error envMissingFile
    [("pdl_file", Json.str "/nowhere/p.pdl"), ("template", Json.str "greeting")]
    "/nowhere/p.pdl" rfl rfl rfl

/-! ### C7: template file with invalid YAML -/

/-- Environment whose file exists but fails YAML parsing. -/
def envBadYaml : Env :=
  { stdinJson := some (.obj
      [("pdl_file", Json.str "/data/bad.pdl"), ("template", Json.str "greeting")]),
    scriptDir := "/app/src/server",
    fs := fun p =>
      if p = "/data/bad.pdl" then some (.error "mapping values are not allowed here")
      else none,
    engine := fun _ _ => .ok "unused" }

/-- C7: when the resolved template file exists but its contents are invalid
YAML, the process exits 1 and emits `success: false` with `error_type:
yaml_error` carrying the parser message. -/
theorem bridge_yaml_error (env : Env) (rq : JObj) (path m : String)
    (hin : env.stdinJson = some (.obj rq))
    (hpath : requestPath env.scriptDir (.obj rq) = .ok path)
    (hfs : env.fs path = some (.error m)) :
    (runBridge env).exitCode = 1 ∧
    jlookup (firstOut (runBridge env)) "success" = some (.bool false) ∧
    jlookup (firstOut (runBridge env)) "error_type" = some (.str "yaml_error") ∧
    jlookup (firstOut (runBridge env)) "error" =
      some (.str ("YAML parsing error: " ++ m)) := by
  have hcfg : loadConfig env (.obj rq) = .error (.yamlError m) := by
    simp only [loadConfig, hpath, hfs]
  have hmain : tryMain env = .error (.yamlError m) := by
    simp only [tryMain, hin, hcfg]
  refine ⟨?_, ?_, ?_, ?_⟩ <;> simp [runBridge, hmain, firstOut, errorOutput, jlookup]

/-- C7 witness: the concrete invalid-YAML run exits 1 with `yaml_error`. -/
theorem bridge_yaml_error_witness :
    (runBridge envBadYaml).exitCode = 1 ∧
    jlookup (firstOut (runBridge envBadYaml)) "success" = some (.bool false) ∧
    jlookup (firstOut (runBridge envBadYaml)) "error_type" = some (.str "yaml_error") ∧
    jlookup (firstOut (runBridge envBadYaml)) "error" =
      some (.str ("YAML parsing error: " ++ "mapping values are not allowed here")) :=
  bridge_yaml_error envBadYaml
    [("pdl_file", Json.str "/data/bad.pdl"), ("template", Json.str "greeting")]
    "/data/bad.pdl" "mapping values are not allowed here" rfl rfl rfl

/-! ### C8: exact characterization of the missing_field error kind -/

theorem pyIndex_keyError {c : Json} {key k : String}
    (h : pyIndex c (.str key) = .error (.keyError k)) :
    ∃ l, c = .obj l ∧ jlookup l key = none ∧ k = key := by
  cases c with
  | obj l =>
    cases hl : jlookup l key with
    | some v =>
      simp only [pyIndex, hl] at h
      exact Except.noConfusion h
    | none =>
      simp only [pyIndex, hl] at h
      exact ⟨l, rfl, hl, (PyExc.keyError.inj (Except.error.inj h)).symm⟩
  | null => exact PyExc.noConfusion (Except.error.inj h)
  | bool b => exact PyExc.noConfusion (Except.error.inj h)
  | num n => exact PyExc.noConfusion (Except.error.inj h)
  | str s => exact PyExc.noConfusion (Except.error.inj h)
  | arr l => exact PyExc.noConfusion (Except.error.inj h)

theorem getTemplateDef_not_keyError {cfg tname : Json} {e : PyExc}
    (h : getTemplateDef cfg tname = .error e) : ∀ k, e ≠ .keyError k := by
  intro k hk
  subst hk
  unfold getTemplateDef at h
  cases hg : pyGet cfg "defs" (.obj []) with
  | error e2 =>
    simp only [hg] at h
    obtain ⟨m, rfl⟩ := pyGet_error hg
    exact PyExc.noConfusion (Except.error.inj h)
  | ok defsVal =>
    simp only [hg] at h
    cases hm : pyIn tname defsVal with
    | error e2 =>
      simp only [hm] at h
      obtain ⟨m, rfl⟩ := pyIn_error hm
      exact PyExc.noConfusion (Except.error.inj h)
    | ok b =>
      simp only [hm] at h
      cases b with
      | false => exact PyExc.noConfusion (Except.error.inj h)
      | true =>
        obtain ⟨s, dl, hx, hc, hany⟩ := pyIn_ok_true hm
        obtain ⟨cl, hcl, hdv⟩ := pyGet_ok hg
        subst hcl hx
        have hsome : jlookup cl "defs" = some defsVal := by
          cases hjl : jlookup cl "defs" with
          | some w =>
            rw [hjl] at hdv
            simp only [Option.getD_some] at hdv
            rw [hdv]
          | none =>
            rw [hjl] at hdv
            simp only [Option.getD_none] at hdv
            rw [hdv] at hc
            have : dl = [] := (Json.obj.inj hc).symm
            rw [this] at hany
            simp at hany
        have hidx : pyIndex (.obj cl) (.str "defs") = .ok defsVal := by
          simp only [pyIndex, hsome]
        simp only [hidx] at h
        obtain ⟨v, hv2⟩ := any_jlookup_isSome hany
        rw [hc] at h
        simp only [pyIndex, hv2] at h
        exact Except.noConfusion h

theorem errorOutput_missing_field {e : PyExc}
    (h : jlookup (errorOutput e) "error_type" = some (.str "missing_field")) :
    ∃ k, e = .keyError k := by
  cases e with
  | keyError k => exact ⟨k, rfl⟩
  | fileNotFound m => simp [errorOutput, jlookup] at h
  | yamlError m => simp [errorOutput, jlookup] at h
  | valueError m => simp [errorOutput, jlookup] at h
  | attributeError m => simp [errorOutput, jlookup] at h
  | typeError m => simp [errorOutput, jlookup] at h
  | other m => simp [errorOutput, jlookup] at h

theorem tryMain_keyError_inv {env : Env} {k : String}
    (h : tryMain env = .error (.keyError k)) :
    ∃ (input tname cfg : Json) (tdefl : JObj),
      env.stdinJson = some input ∧
      loadConfig env input = .ok cfg ∧
      pyGet input "template" Json.null = .ok tname ∧
      getTemplateDef cfg tname = .ok (.obj tdefl) ∧
      jlookup tdefl "text" = none ∧ k = "text" := by
  unfold tryMain at h
  cases hin : env.stdinJson with
  | none =>
    simp only [hin] at h
    exact PyExc.noConfusion (Except.error.inj h)
  | some input =>
    simp only [hin] at h
    cases hcfg : loadConfig env input with
    | error e =>
      simp only [hcfg] at h
      exact absurd (Except.error.inj h).symm (Ne.symm (loadConfig_not_keyError hcfg k))
    | ok cfg =>
      simp only [hcfg] at h
      cases htn : pyGet input "template" Json.null with
      | error e =>
        simp only [htn] at h
        obtain ⟨m, rfl⟩ := pyGet_error htn
        exact PyExc.noConfusion (Except.error.inj h)
      | ok tname =>
        simp only [htn] at h
        cases htd : getTemplateDef cfg tname with
        | error e =>
          simp only [htd] at h
          exact absurd (Except.error.inj h).symm (Ne.symm (getTemplateDef_not_keyError htd k))
        | ok tdef =>
          simp only [htd] at h
          cases hv : pyGet input "variables" (.obj []) with
          | error e =>
            simp only [hv] at h
            obtain ⟨m, rfl⟩ := pyGet_error hv
            exact PyExc.noConfusion (Except.error.inj h)
          | ok vars =>
            simp only [hv] at h
            cases htx : pyIndex tdef (.str "text") with
            | error e =>
              simp only [htx] at h
              have he : e = .keyError k := Except.error.inj h
              subst he
              obtain ⟨tdefl, htl, hnone, hk⟩ := pyIndex_keyError htx
              rw [htl] at htd
              exact ⟨input, tname, cfg, tdefl, rfl, hcfg, htn, htd, hnone, hk⟩
            | ok ttext =>
              simp only [htx] at h
              cases heng : env.engine ttext vars with
              | error m =>
                simp only [heng] at h
                exact PyExc.noConfusion (Except.error.inj h)
              | ok raw =>
                simp only [heng] at h
                cases hks : pyKeys vars with
                | error e =>
                  simp only [hks] at h
                  obtain ⟨m, rfl⟩ := pyKeys_error hks
                  exact PyExc.noConfusion (Except.error.inj h)
                | ok ks =>
                  simp only [hks] at h
                  exact Except.noConfusion h

/-- Environment whose named template's definition is a mapping without a
`text` entry. -/
def envNoTextKey : Env :=
  { stdinJson := some (.obj
      [("pdl_file", Json.str "/data/prompts.pdl"), ("template", Json.str "broken")]),
    scriptDir := "/app/src/server",
    fs := fun p =>
      if p = "/data/prompts.pdl" then
        some (.ok (.obj [("defs",
          .obj [("broken", .obj [("description", .str "no text here")])])]))
      else none,
    engine := fun _ _ => .ok "unused" }

/-- C8: the run emits `error_type: missing_field` exactly when it reaches
the one guarded lookup — the named template's definition is found, is a
mapping, and lacks a `text` key (the `KeyError` of `template_def['text']`);
key-absence failures anywhere else never produce `missing_field`, and a
`missing_field` response comes with exit status 1. -/
theorem bridge_missing_field_characterization (env : Env) :
    (jlookup (firstOut (runBridge env)) "error_type" = some (.str "missing_field") ↔
      ∃ (input tname cfg : Json) (tdefl : JObj),
        env.stdinJson = some input ∧
        loadConfig env input = .ok cfg ∧
        pyGet input "template" Json.null = .ok tname ∧
        getTemplateDef cfg tname = .ok (.obj tdefl) ∧
        jlookup tdefl "text" = none) ∧
    (jlookup (firstOut (runBridge env)) "error_type" = some (.str "missing_field") →
      (runBridge env).exitCode = 1) := by
  refine ⟨⟨?_, ?_⟩, ?_⟩
  · intro h
    cases htm : tryMain env with
    | ok o =>
      obtain ⟨input, tname, vars, raw, ks, _, _, _, _, ho⟩ := tryMain_ok_inv htm
      subst ho
      have hfo : firstOut (runBridge env) = successOutput (pyStrip raw) tname ks := by
        simp [runBridge, htm, firstOut]
      rw [hfo] at h
      simp [successOutput, jlookup] at h
    | error e =>
      have hfo : firstOut (runBridge env) = errorOutput e := by
        simp [runBridge, htm, firstOut]
      rw [hfo] at h
      obtain ⟨k, rfl⟩ := errorOutput_missing_field h
      obtain ⟨input, tname, cfg, tdefl, hi, hc, ht, hd, hn, _⟩ := tryMain_keyError_inv htm
      exact ⟨input, tname, cfg, tdefl, hi, hc, ht, hd, hn⟩
  · rintro ⟨input, tname, cfg, tdefl, hi, hc, ht, hd, hn⟩
    obtain ⟨rql, hrq, _⟩ := pyGet_ok ht
    subst hrq
    have hvv : pyGet (.obj rql) "variables" (.obj []) =
        .ok ((jlookup rql "variables").getD (.obj [])) := by simp [pyGet]
    have htx : pyIndex (.obj tdefl) (.str "text") = .error (.keyError "text") := by
      simp only [pyIndex, hn]
    have hmain : tryMain env = .error (.keyError "text") := by
      simp only [tryMain, hi, hc, ht, hd, hvv, htx]
    simp [runBridge, hmain, firstOut, errorOutput, jlookup]
  · intro h
    cases htm : tryMain env with
    | ok o =>
      obtain ⟨input, tname, vars, raw, ks, _, _, _, _, ho⟩ := tryMain_ok_inv htm
      subst ho
      have hfo : firstOut (runBridge env) = successOutput (pyStrip raw) tname ks := by
        simp [runBridge, htm, firstOut]
      rw [hfo] at h
      simp [successOutput, jlookup] at h
    | error e => simp [runBridge, htm]

/-- C8 witness: a template definition lacking `text` produces
`missing_field` with exit status 1. -/
theorem bridge_missing_field_characterization_witness :
    jlookup (firstOut (runBridge envNoTextKey)) "error_type" =
      some (.str "missing_field") ∧
    (runBridge envNoTextKey).exitCode = 1 := by
  have h := (bridge_missing_field_characterization envNoTextKey).1.mpr
    ⟨.obj [("pdl_file", Json.str "/data/prompts.pdl"), ("template", Json.str "broken")],
     .str "broken",
     .obj [("defs", .obj [("broken", .obj [("description", .str "no text here")])])],
     [("description", Json.str "no text here")],
     rfl, rfl, rfl, rfl, rfl⟩
  exact ⟨h, (bridge_missing_field_characterization envNoTextKey).2 h⟩

/-! ### C9: determinism of a run -/

/-- C9: with the external engine modelled as a function of the parsed
program and the variable scope (the claim's determinism assumption), two
invocations with identical standard input, script location, filesystem
contents and engine produce identical results — in particular
byte-identical `content`. -/
theorem bridge_deterministic (env1 env2 : Env)
    (h1 : env1.stdinJson = env2.stdinJson)
    (h2 : env1.scriptDir = env2.scriptDir)
    (h3 : env1.fs = env2.fs)
    (h4 : env1.engine = env2.engine) :
    runBridge env1 = runBridge env2 ∧
    jlookup (firstOut (runBridge env1)) "content" =
      jlookup (firstOut (runBridge env2)) "content" := by
  have he : env1 = env2 := by
    cases env1
    cases env2
    simp only [Env.mk.injEq]
    exact ⟨h1, h2, h3, h4⟩
  rw [he]
  exact ⟨rfl, rfl⟩

/-- C9 witness: the happy-path environment compared with itself. -/
theorem bridge_deterministic_witness :
    runBridge envSuccess = runBridge envSuccess ∧
    jlookup (firstOut (runBridge envSuccess)) "content" =
      jlookup (firstOut (runBridge envSuccess)) "content" :=
  bridge_deterministic envSuccess envSuccess rfl rfl rfl rfl

/-! ### C10: request with no template key at all -/

/-- Environment whose request lacks the `template` key entirely. -/
def envNoTemplateKey : Env :=
  { stdinJson := some (.obj
      [("pdl_file", Json.str "/data/prompts.pdl"),
       ("variables", Json.obj [("x", Json.num 1)])]),
    scriptDir := "/app/src/server",
    fs := fun p => if p = "/data/prompts.pdl" then some (.ok (.obj okConfig)) else none,
    engine := fun _ _ => .ok "unused" }

/-- C10: when the request lacks the `template` key entirely (template file
present and valid), `input_data.get` yields `None`, which fails the `defs`
membership test, so the script raises its generic `ValueError` — interpolating
`None` into the message — and the catch-all clause emits `ai_error` (not
`missing_field`), exiting 1. -/
theorem bridge_absent_template_key_ai_error (env : Env) (rq : JObj) (path : String)
    (cfgl : JObj)
    (hin : env.stdinJson = some (.obj rq))
    (hnt : jlookup rq "template" = none)
    (hpath : requestPath env.scriptDir (.obj rq) = .ok path)
    (hfs : env.fs path = some (.ok (.obj cfgl)))
    (hdefs : (∃ defsl, jlookup cfgl "defs" = some (.obj defsl)) ∨ jlookup cfgl "defs" = none) :
    (runBridge env).exitCode = 1 ∧
    firstOut (runBridge env) =
      errorOutput (.valueError "Template \x27None\x27 not found in PDL configuration") ∧
    jlookup (firstOut (runBridge env)) "error_type" = some (.str "ai_error") := by
  have hcfg : loadConfig env (.obj rq) = .ok (.obj cfgl) := by
    simp only [loadConfig, hpath, hfs]
  have htn : pyGet (.obj rq) "template" Json.null = .ok Json.null := by
    simp [pyGet, hnt]
  obtain ⟨defsl, hd⟩ : ∃ defsl, pyGet (.obj cfgl) "defs" (.obj []) = .ok (.obj defsl) := by
    rcases hdefs with ⟨dl, hdl⟩ | hnone
    · exact ⟨dl, by simp [pyGet, hdl]⟩
    · exact ⟨[], by simp [pyGet, hnone]⟩
  have hmem : pyIn Json.null (.obj defsl) = .ok false := by simp [pyIn]
  have htd : getTemplateDef (.obj cfgl) Json.null =
      .error (.valueError "Template \x27None\x27 not found in PDL configuration") := by
    simp only [getTemplateDef, hd, hmem]
    rfl
  have hmain : tryMain env =
      .error (.valueError "Template \x27None\x27 not found in PDL configuration") := by
    simp only [tryMain, hin, hcfg, htn, htd]
  refine ⟨?_, ?_, ?_⟩ <;> simp [runBridge, hmain, firstOut, errorOutput, jlookup]

/-- C10 witness: the concrete template-less request exits 1 with the
`None`-interpolated message under `ai_error`. -/
theorem bridge_absent_template_key_ai_error_witness :
    (runBridge envNoTemplateKey).exitCode = 1 ∧
    firstOut (runBridge envNoTemplateKey) =
      errorOutput (.valueError "Template \x27None\x27 not found in PDL configuration") ∧
    jlookup (firstOut (runBridge envNoTemplateKey)) "error_type" = some (.str "ai_error") :=
  bridge_absent_template_key_ai_error envNoTemplateKey
    [("pdl_file", Json.str "/data/prompts.pdl"), ("variables", Json.obj [("x", Json.num 1)])]
    "/data/prompts.pdl" okConfig rfl rfl rfl rfl (Or.inl ⟨okConfigDefs, rfl⟩)

end Bridge
